import Mathlib

/-!
# Verification of the image-animation app (src/App.tsx)

Shallow embedding of the generation-orchestration workflow of `App.tsx`:
the component state, the object-URL resource lifecycle, the
`handleImageChange` handler, the `handleGenerateVideo` orchestration
(validation, encode, submit, poll loop, asset fetch, catch/finally), and
the loading-message rotation effect.

Modelling conventions:
- Object URLs (`URL.createObjectURL` / `URL.revokeObjectURL`) are modelled
  as natural-number handles drawn from a counter; a `ResourceEnv` records
  the next fresh handle and the list of revoked handles.
- The React cleanup effect on `generatedVideoUrl` (App.tsx lines 86-93)
  runs whenever the state value changes between renders; it is modelled as
  part of the state-setting operation `setGeneratedVideoUrlM`.
- Asynchronous steps (`fileToBase64`, `generateVideos`,
  `getVideosOperation`, `fetch`, `blob`) are modelled by an environment
  `GenEnv` giving each step's outcome.  A thrown value is modelled by the
  string the catch block computes from it
  (`err instanceof Error ? err.message : "An unknown error occurred."`).
- The unbounded `while (!operation.done)` poll loop is driven by a finite
  schedule of poll outcomes; exhausting the schedule while the job is
  undone yields the `pending` outcome (the loop would keep polling).
-/

/-- A user-supplied image file; only its MIME type is read by the code
(`imageFile.type`), the contents are consumed opaquely by the encoder. -/
structure ImageFile where
  type : String
deriving DecidableEq

/-- The aspect-ratio union type of the source (`'16:9' | '9:16'`). -/
inductive Aspect
  | r16x9
  | r9x16
deriving DecidableEq

/-- The five module-level loading messages (App.tsx lines 34-40). -/
def loadingMessages : List String :=
  [ "Warming up the creative engines...",
    "Gathering pixels and inspiration...",
    "This can take a few minutes, great art needs patience.",
    "Composing your video masterpiece...",
    "Finalizing the special effects..." ]

/-- The component state of `App` (the `useState` hooks, App.tsx 44-52).
Object-URL strings are modelled as `Nat` handles. -/
structure AppState where
  apiKeySelected : Option Bool
  imageFile : Option ImageFile
  imagePreview : Option Nat
  prompt : String
  aspect : Aspect
  isLoading : Bool
  loadingMessage : String
  generatedVideoUrl : Option Nat
  error : Option String
deriving DecidableEq

/-- The browser's object-URL store: handles `0, ..., nextHandle - 1` have
been created, and `revoked` lists those released by `revokeObjectURL`. -/
structure ResourceEnv where
  nextHandle : Nat
  revoked : List Nat
deriving DecidableEq

/-- `URL.createObjectURL`: returns a fresh handle. -/
def createObjectURL (renv : ResourceEnv) : Nat × ResourceEnv :=
  (renv.nextHandle, { renv with nextHandle := renv.nextHandle + 1 })

/-- `URL.revokeObjectURL`. -/
def revokeObjectURL (renv : ResourceEnv) (h : Nat) : ResourceEnv :=
  { renv with revoked := h :: renv.revoked }

/-- A handle that has been created and not revoked. -/
def alive (renv : ResourceEnv) (h : Nat) : Prop :=
  h < renv.nextHandle ∧ h ∉ renv.revoked

instance (renv : ResourceEnv) (h : Nat) : Decidable (alive renv h) := by
  unfold alive; infer_instance

/-- The cleanup of the effect on `[generatedVideoUrl]` (App.tsx 86-93):
when the value changes between renders, the previous effect's cleanup
revokes the previously captured URL. -/
def generatedVideoUrlCleanup (old new : Option Nat) (renv : ResourceEnv) :
    ResourceEnv :=
  match old with
  | some h => if new ≠ some h then revokeObjectURL renv h else renv
  | none => renv

/-- `setGeneratedVideoUrl v` together with the cleanup effect it triggers
on the next render. -/
def setGeneratedVideoUrlM (s : AppState) (renv : ResourceEnv)
    (v : Option Nat) : AppState × ResourceEnv :=
  ({ s with generatedVideoUrl := v },
   generatedVideoUrlCleanup s.generatedVideoUrl v renv)

/-- `handleImageChange` (App.tsx 103-113): on a chosen file, clear any
generated video (triggering its cleanup), store the file, create a
preview object URL and store it.  The previous preview URL, if any, is
not revoked by the source. -/
def handleImageChange (s : AppState) (renv : ResourceEnv)
    (file : Option ImageFile) : AppState × ResourceEnv :=
  match file with
  | none => (s, renv)
  | some f =>
    let sr :=
      if s.generatedVideoUrl.isSome then setGeneratedVideoUrlM s renv none
      else (s, renv)
    let s1 := { sr.1 with imageFile := some f }
    let pr := createObjectURL sr.2
    ({ s1 with imagePreview := some pr.1 }, pr.2)

/-- A remote generation operation object, as the code reads it:
`operation.done` and `operation.response?.generatedVideos?[0]?.video?.uri`. -/
structure Operation where
  done : Bool
  videoUri : Option String
deriving DecidableEq

/-- A `fetch` response, as the code reads it: `ok` and `statusText`. -/
structure FetchResponse where
  ok : Bool
  statusText : String
deriving DecidableEq

/-- Outcomes of the asynchronous steps of `handleGenerateVideo`.  An
`Except.error m` models a throw whose catch-block message is `m`
(`err instanceof Error ? err.message : "An unknown error occurred."`).
`polls` is the schedule of successive `getVideosOperation` outcomes. -/
structure GenEnv where
  apiKey : Option String
  encode : Except String String
  submit : Except String Operation
  polls : List (Except String Operation)
  fetchResp : Except String FetchResponse
  blob : Except String Unit

/-- Network/encoding events, in order of occurrence.  `pollCall op`
records the operation handle passed to `getVideosOperation`. -/
inductive NetEvent
  | encodeCall
  | submitCall
  | wait (ms : Nat)
  | pollCall (op : Operation)
  | fetchCall
deriving DecidableEq

/-- The `while (!operation.done)` loop (App.tsx 145-148): while the
operation is undone, wait 10000 ms, then poll with the current handle and
continue with the refreshed one.  Returns `none` if the schedule is
exhausted while still undone (the loop would keep going: it has no
iteration cap), together with the trace of waits and polls. -/
def pollLoop (op : Operation) (polls : List (Except String Operation)) :
    Option (Except String Operation) × List NetEvent :=
  if op.done then (some (Except.ok op), [])
  else
    match polls with
    | [] => (none, [])
    | p :: rest =>
      match p with
      | Except.error m =>
        (some (Except.error m), [NetEvent.wait 10000, NetEvent.pollCall op])
      | Except.ok op1 =>
        let r := pollLoop op1 rest
        (r.1, NetEvent.wait 10000 :: NetEvent.pollCall op :: r.2)

/-- Control-flow outcome of the `try` block of `handleGenerateVideo`. -/
inductive FlowResult
  | pending
  | success
  | failure (msg : String)
deriving DecidableEq

/-- The message thrown when the job is done without a video URI
(App.tsx 160). -/
def missingUriText : String :=
  "Video generation completed, but no video URI was found."

/-- The `try` block of `handleGenerateVideo` (App.tsx 127-161) up to, but
not including, the registration of the produced object URL: encode the
image, submit the job, poll until done, check the result URI and the
credential, fetch the asset and read its blob.  Returns the control-flow
outcome and the trace of network events. -/
def flowResult (env : GenEnv) : FlowResult × List NetEvent :=
  match env.encode with
  | Except.error m => (FlowResult.failure m, [NetEvent.encodeCall])
  | Except.ok _ =>
    match env.submit with
    | Except.error m =>
      (FlowResult.failure m, [NetEvent.encodeCall, NetEvent.submitCall])
    | Except.ok op =>
      let pl := pollLoop op env.polls
      let tr := NetEvent.encodeCall :: NetEvent.submitCall :: pl.2
      match pl.1 with
      | none => (FlowResult.pending, tr)
      | some (Except.error m) => (FlowResult.failure m, tr)
      | some (Except.ok opF) =>
        match opF.videoUri, env.apiKey with
        | some _, some _ =>
          (match env.fetchResp with
           | Except.error m => (FlowResult.failure m, tr ++ [NetEvent.fetchCall])
           | Except.ok resp =>
             if !resp.ok then
               (FlowResult.failure ("Failed to fetch video: " ++ resp.statusText),
                tr ++ [NetEvent.fetchCall])
             else
               match env.blob with
               | Except.error m => (FlowResult.failure m, tr ++ [NetEvent.fetchCall])
               | Except.ok _ => (FlowResult.success, tr ++ [NetEvent.fetchCall]))
        | _, _ => (FlowResult.failure missingUriText, tr)

/-- Character-list version of "the first list occurs at the head of the
second list". -/
def charsStartWith : List Char → List Char → Bool
  | [], _ => true
  | _ :: _, [] => false
  | a :: as, b :: bs => a == b && charsStartWith as bs

/-- Character-list version of "the first list occurs somewhere inside the
second list". -/
def charsOccurIn (needle : List Char) : List Char → Bool
  | [] => charsStartWith needle []
  | c :: rest => charsStartWith needle (c :: rest) || charsOccurIn needle rest

/-- JavaScript `String.prototype.includes`: substring containment. -/
def strIncludes (hay needle : String) : Bool :=
  charsOccurIn needle.data hay.data

/-- The entity-not-found signal matched by the catch block (App.tsx 166). -/
def entityNotFoundSignal : String := "Requested entity was not found"

/-- The error banner text for the auth classification (App.tsx 167). -/
def authErrorText : String :=
  "Your API key is invalid or not configured. Please select a valid key."

/-- The validation error banner text (App.tsx 117). -/
def validationErrorText : String :=
  "Please upload an image and provide a prompt."

/-- The catch block of `handleGenerateVideo` (App.tsx 163-171): a message
containing the entity-not-found signal sets the auth error text and flips
`apiKeySelected` to false; any other message sets the generic failure
banner and leaves `apiKeySelected` untouched. -/
def catchBlock (s : AppState) (msg : String) : AppState :=
  if strIncludes msg entityNotFoundSignal then
    { s with error := some authErrorText, apiKeySelected := some false }
  else
    { s with error := some ("Failed to generate video: " ++ msg) }

/-- `handleGenerateVideo` (App.tsx 115-175).  Validation failure returns
immediately with only the error banner set and an empty network trace.
Otherwise: set loading, clear the error, clear any previous generated
video (triggering its cleanup), run the try block; on success create and
register the result object URL, on failure run the catch block; the
finally clause clears the loading flag on every completed path.  Returns
`none` (still in the poll loop) when the poll schedule is exhausted. -/
def handleGenerateVideo (s : AppState) (renv : ResourceEnv) (env : GenEnv) :
    Option (AppState × ResourceEnv) × List NetEvent :=
  if s.imageFile.isNone || s.prompt == "" then
    (some ({ s with error := some validationErrorText }, renv), [])
  else
    let s1 := { s with isLoading := true, error := none }
    let sr1 :=
      if s1.generatedVideoUrl.isSome then setGeneratedVideoUrlM s1 renv none
      else (s1, renv)
    let fl := flowResult env
    match fl.1 with
    | FlowResult.pending => (none, fl.2)
    | FlowResult.success =>
      let pr := createObjectURL sr1.2
      let sr2 := setGeneratedVideoUrlM sr1.1 pr.2 (some pr.1)
      (some ({ sr2.1 with isLoading := false }, sr2.2), fl.2)
    | FlowResult.failure m =>
      (some ({ catchBlock sr1.1 m with isLoading := false }, sr1.2), fl.2)

/-- `isGenerateDisabled` (App.tsx 177): `isLoading || !imageFile ||
!prompt`. -/
def isGenerateDisabled (isLoading : Bool) (imageFile : Option ImageFile)
    (prompt : String) : Bool :=
  isLoading || imageFile.isNone || prompt == ""

/-- JavaScript `Array.prototype.indexOf`: the first index of `x` in `l`,
or `-1` when absent. -/
def jsIndexOf (l : List String) (x : String) : Int :=
  match l with
  | [] => -1
  | a :: rest =>
    if a == x then 0
    else
      let r := jsIndexOf rest x
      if r == -1 then -1 else r + 1

/-- One tick of the loading-message interval (App.tsx 76-80):
`loadingMessages[(loadingMessages.indexOf(prev) + 1) % loadingMessages.length]`. -/
def rotateLoadingMessage (prev : String) : String :=
  let nextIndex : Int :=
    (jsIndexOf loadingMessages prev + 1) % (loadingMessages.length : Int)
  loadingMessages.getD nextIndex.toNat ""

/-! ## Concrete fixtures used by witnesses and counterexamples -/

/-- A component state with an image and a prompt, not loading. -/
def readyState : AppState :=
  { apiKeySelected := some true, imageFile := some ⟨"image/png"⟩,
    imagePreview := some 0, prompt := "a gentle breeze", aspect := Aspect.r16x9,
    isLoading := false, loadingMessage := "m", generatedVideoUrl := none,
    error := none }

/-- A resource environment holding the single live preview handle 0. -/
def oneHandleRenv : ResourceEnv := { nextHandle := 1, revoked := [] }

/-- An environment in which every step succeeds after one undone poll. -/
def happyEnv : GenEnv :=
  { apiKey := some "k", encode := Except.ok "b64",
    submit := Except.ok ⟨false, none⟩,
    polls := [Except.ok ⟨true, some "u"⟩],
    fetchResp := Except.ok ⟨true, "OK"⟩, blob := Except.ok () }

/-! ## Theorems -/

/-- C1: the claim states that registering a second handle in a slot
releases the first, so no two live handles coexist in one slot.  The code
violates this for the preview slot: `handleImageChange` (App.tsx 103-113)
creates a new preview object URL without ever revoking the previous one
(there is no cleanup effect for `imagePreview`).  Starting from a state
whose preview slot holds live handle 0, choosing a new image leaves both
the old preview handle 0 and the new preview handle 1 alive. -/
theorem c1_preview_slot_leak :
    (handleImageChange readyState oneHandleRenv (some ⟨"image/jpeg"⟩)).1.imagePreview
        = some 1
    ∧ readyState.imagePreview = some 0
    ∧ alive (handleImageChange readyState oneHandleRenv (some ⟨"image/jpeg"⟩)).2 0
    ∧ alive (handleImageChange readyState oneHandleRenv (some ⟨"image/jpeg"⟩)).2 1 := by
  decide

/-- C4: a request with a missing image or an empty prompt returns
immediately with only the validation error banner set: no encoding,
submission, poll or fetch event occurs, and state and resources are
otherwise untouched. -/
theorem c4_validation_no_network (s : AppState) (renv : ResourceEnv)
    (env : GenEnv) (h : s.imageFile = none ∨ s.prompt = "") :
    handleGenerateVideo s renv env =
      (some ({ s with error := some validationErrorText }, renv), []) := by
  unfold handleGenerateVideo
  rcases h with h | h <;> simp [h]

/-- Witness for C4 at a concrete empty-prompt state. -/
theorem c4_validation_no_network_witness :
    ({ readyState with prompt := "" }.imageFile = none
      ∨ { readyState with prompt := "" }.prompt = "")
    ∧ handleGenerateVideo { readyState with prompt := "" } oneHandleRenv happyEnv =
        (some ({ readyState with prompt := "", error := some validationErrorText },
               oneHandleRenv), []) :=
  ⟨Or.inr rfl,
   c4_validation_no_network { readyState with prompt := "" } oneHandleRenv happyEnv
     (Or.inr rfl)⟩

/-- C2 counterexample: the claim states that the orchestrator itself
rejects a `generate()` call arriving while a flow is in flight, or first
cancels the prior flow.  The code has no such guard: `handleGenerateVideo`
(App.tsx 115-175) never consults `isLoading` and owns no cancellation
mechanism, so invoked in a state with `isLoading = true` it still submits
a fresh job and runs a full second flow to completion. -/
theorem c2_reentrancy_counterexample :
    ({ readyState with isLoading := true } : AppState).isLoading = true
    ∧ NetEvent.submitCall ∈
        (handleGenerateVideo { readyState with isLoading := true }
          oneHandleRenv happyEnv).2
    ∧ (handleGenerateVideo { readyState with isLoading := true }
          oneHandleRenv happyEnv).1.isSome = true := by
  decide

/-- C2 amended: single-flight is enforced only by the presentation layer —
`isGenerateDisabled` is true whenever `isLoading` is true, disabling the
triggering button — while the orchestrator function itself performs no
re-entrancy guard: invoked with `isLoading = true` it still submits a new
job. -/
theorem c2_presentation_guard_only :
    (∀ (img : Option ImageFile) (p : String), isGenerateDisabled true img p = true)
    ∧ NetEvent.submitCall ∈
        (handleGenerateVideo { readyState with isLoading := true }
          oneHandleRenv happyEnv).2 := by
  refine ⟨fun img p => rfl, by decide⟩

/-- C3: whenever the try block of a generation flow fails with message
`m`, the flow returns normally; if `m` contains the entity-not-found
signal the error banner is the auth text and `apiKeySelected` is flipped
to false, otherwise the banner is the generic failure text carrying `m`
and `apiKeySelected` is left unchanged. -/
theorem c3_error_classification (s : AppState) (renv : ResourceEnv)
    (env : GenEnv) (m : String)
    (himg : s.imageFile.isNone = false) (hp : (s.prompt == "") = false)
    (hfl : (flowResult env).1 = FlowResult.failure m) :
    ∃ s2 renv2, (handleGenerateVideo s renv env).1 = some (s2, renv2)
    ∧ (strIncludes m entityNotFoundSignal = true →
        s2.error = some authErrorText ∧ s2.apiKeySelected = some false)
    ∧ (strIncludes m entityNotFoundSignal = false →
        s2.error = some ("Failed to generate video: " ++ m)
        ∧ s2.apiKeySelected = s.apiKeySelected) := by
  unfold handleGenerateVideo
  rw [if_neg (by simp [himg, hp])]
  simp only [hfl]
  by_cases hg : s.generatedVideoUrl.isSome <;>
    by_cases hinc : strIncludes m entityNotFoundSignal <;>
      simp [hg, hinc, catchBlock, setGeneratedVideoUrlM]

/-- An environment whose submission fails with an entity-not-found
message. -/
def authFailEnv : GenEnv :=
  { apiKey := some "k", encode := Except.ok "b64",
    submit := Except.error "got status: Requested entity was not found.",
    polls := [], fetchResp := Except.ok ⟨true, "OK"⟩, blob := Except.ok () }

/-- Witness for C3 at a concrete entity-not-found submission failure. -/
theorem c3_error_classification_witness :
    (readyState.imageFile.isNone = false ∧ (readyState.prompt == "") = false
      ∧ (flowResult authFailEnv).1 =
          FlowResult.failure "got status: Requested entity was not found.")
    ∧ ∃ s2 renv2,
        (handleGenerateVideo readyState oneHandleRenv authFailEnv).1 = some (s2, renv2)
        ∧ (strIncludes "got status: Requested entity was not found."
              entityNotFoundSignal = true →
            s2.error = some authErrorText ∧ s2.apiKeySelected = some false)
        ∧ (strIncludes "got status: Requested entity was not found."
              entityNotFoundSignal = false →
            s2.error = some ("Failed to generate video: "
                ++ "got status: Requested entity was not found.")
            ∧ s2.apiKeySelected = readyState.apiKeySelected) :=
  ⟨⟨rfl, rfl, rfl⟩,
   c3_error_classification readyState oneHandleRenv authFailEnv
     "got status: Requested entity was not found." rfl rfl rfl⟩

/-- C5: when the job completes with a result URI, the credential is
present, and the fetch and blob read succeed, the flow performs the fetch
and reaches the ready state exactly once: exactly one new handle is
created (the counter advances by one), it is registered under the result
slot (`generatedVideoUrl`), any prior result handle is revoked, and the
preview slot is untouched. -/
theorem c5_ready_registration (s : AppState) (renv : ResourceEnv)
    (env : GenEnv) (b : String) (op opF : Operation) (uri key : String)
    (resp : FetchResponse)
    (himg : s.imageFile.isNone = false) (hp : (s.prompt == "") = false)
    (henc : env.encode = Except.ok b) (hsub : env.submit = Except.ok op)
    (hpoll : (pollLoop op env.polls).1 = some (Except.ok opF))
    (huri : opF.videoUri = some uri) (hkey : env.apiKey = some key)
    (hfetch : env.fetchResp = Except.ok resp) (hok : resp.ok = true)
    (hblob : env.blob = Except.ok ()) :
    ∃ s2 renv2, (handleGenerateVideo s renv env).1 = some (s2, renv2)
    ∧ s2.generatedVideoUrl = some renv.nextHandle
    ∧ renv2.nextHandle = renv.nextHandle + 1
    ∧ renv2.revoked = s.generatedVideoUrl.toList ++ renv.revoked
    ∧ s2.imagePreview = s.imagePreview
    ∧ s2.isLoading = false
    ∧ s2.error = none
    ∧ NetEvent.fetchCall ∈ (handleGenerateVideo s renv env).2 := by
  have hfl : flowResult env =
      ((FlowResult.success),
        (NetEvent.encodeCall :: NetEvent.submitCall :: (pollLoop op env.polls).2)
          ++ [NetEvent.fetchCall]) := by
    unfold flowResult
    rw [henc, hsub, hfetch, hkey]
    rcases hpl : pollLoop op env.polls with ⟨r, tr⟩
    rw [hpl] at hpoll
    simp only at hpoll
    subst hpoll
    simp [huri, hok, hblob, hpl]
  unfold handleGenerateVideo
  rw [if_neg (by simp [himg, hp])]
  simp only [hfl]
  rcases hgv : s.generatedVideoUrl with _ | h0 <;>
    simp [hgv, setGeneratedVideoUrlM, generatedVideoUrlCleanup, createObjectURL,
      revokeObjectURL] <;>
    exact ⟨_, _, ⟨rfl, rfl⟩, rfl, rfl, rfl, rfl, rfl, rfl⟩

/-- A state holding the live preview handle 0 and the live result handle
1, with a matching resource environment. -/
def twoSlotState : AppState := { readyState with generatedVideoUrl := some 1 }

/-- Resource environment for `twoSlotState`: handles 0 and 1 created. -/
def twoSlotRenv : ResourceEnv := { nextHandle := 2, revoked := [] }

/-- Witness for C5 at a concrete run with a prior result handle. -/
theorem c5_ready_registration_witness :
    (twoSlotState.imageFile.isNone = false ∧ (twoSlotState.prompt == "") = false
      ∧ happyEnv.encode = Except.ok "b64"
      ∧ happyEnv.submit = Except.ok ⟨false, none⟩
      ∧ (pollLoop ⟨false, none⟩ happyEnv.polls).1 =
          some (Except.ok ⟨true, some "u"⟩)
      ∧ (⟨true, some "u"⟩ : Operation).videoUri = some "u"
      ∧ happyEnv.apiKey = some "k"
      ∧ happyEnv.fetchResp = Except.ok ⟨true, "OK"⟩
      ∧ (⟨true, "OK"⟩ : FetchResponse).ok = true
      ∧ happyEnv.blob = Except.ok ())
    ∧ ∃ s2 renv2,
        (handleGenerateVideo twoSlotState twoSlotRenv happyEnv).1 = some (s2, renv2)
        ∧ s2.generatedVideoUrl = some twoSlotRenv.nextHandle
        ∧ renv2.nextHandle = twoSlotRenv.nextHandle + 1
        ∧ renv2.revoked = twoSlotState.generatedVideoUrl.toList ++ twoSlotRenv.revoked
        ∧ s2.imagePreview = twoSlotState.imagePreview
        ∧ s2.isLoading = false
        ∧ s2.error = none
        ∧ NetEvent.fetchCall ∈ (handleGenerateVideo twoSlotState twoSlotRenv happyEnv).2 :=
  ⟨⟨rfl, rfl, rfl, rfl, rfl, rfl, rfl, rfl, rfl, rfl⟩,
   c5_ready_registration twoSlotState twoSlotRenv happyEnv "b64" ⟨false, none⟩
     ⟨true, some "u"⟩ "u" "k" ⟨true, "OK"⟩ rfl rfl rfl rfl rfl rfl rfl rfl rfl rfl⟩

/-- The poll loop emits only waits and poll calls, never a fetch. -/
theorem pollLoop_no_fetch (op : Operation)
    (polls : List (Except String Operation)) :
    NetEvent.fetchCall ∉ (pollLoop op polls).2 := by
  induction polls generalizing op with
  | nil =>
    unfold pollLoop
    split <;> simp
  | cons p rest ih =>
    unfold pollLoop
    split
    · simp
    · cases p with
      | error m => simp
      | ok op1 => simpa using ih op1

/-- C6: when the poll loop ends with a done operation carrying no video
URI, the flow terminates in the failure state carrying the
missing-result message: the error banner is set to it, no result handle
is created (the counter is unchanged and the result slot is empty), the
loading flag is cleared, and the flow performs no fetch. -/
theorem c6_missing_result (s : AppState) (renv : ResourceEnv) (env : GenEnv)
    (b : String) (op opF : Operation)
    (himg : s.imageFile.isNone = false) (hp : (s.prompt == "") = false)
    (henc : env.encode = Except.ok b) (hsub : env.submit = Except.ok op)
    (hpoll : (pollLoop op env.polls).1 = some (Except.ok opF))
    (huri : opF.videoUri = none) :
    ∃ s2 renv2, (handleGenerateVideo s renv env).1 = some (s2, renv2)
    ∧ s2.error = some ("Failed to generate video: " ++ missingUriText)
    ∧ s2.generatedVideoUrl = none
    ∧ renv2.nextHandle = renv.nextHandle
    ∧ s2.isLoading = false
    ∧ NetEvent.fetchCall ∉ (handleGenerateVideo s renv env).2 := by
  have hfl : flowResult env =
      (FlowResult.failure missingUriText,
        NetEvent.encodeCall :: NetEvent.submitCall :: (pollLoop op env.polls).2) := by
    unfold flowResult
    rw [henc, hsub]
    rcases hpl : pollLoop op env.polls with ⟨r, tr⟩
    rw [hpl] at hpoll
    simp only at hpoll
    subst hpoll
    simp [huri, hpl]
  have hninc : strIncludes missingUriText entityNotFoundSignal = false := by decide
  have hnofetch : NetEvent.fetchCall ∉
      NetEvent.encodeCall :: NetEvent.submitCall :: (pollLoop op env.polls).2 := by
    have hptr := pollLoop_no_fetch op env.polls
    simp only [List.mem_cons, not_or]
    exact ⟨fun h => NetEvent.noConfusion h, fun h => NetEvent.noConfusion h, hptr⟩
  unfold handleGenerateVideo
  rw [if_neg (by simp [himg, hp])]
  simp only [hfl]
  rcases hgv : s.generatedVideoUrl with _ | h0 <;>
    simp [hgv, catchBlock, hninc, setGeneratedVideoUrlM, generatedVideoUrlCleanup,
      revokeObjectURL, hnofetch] <;>
    exact ⟨_, _, ⟨rfl, rfl⟩, rfl, rfl, rfl, rfl⟩

/-- An environment whose job completes without a video URI. -/
def noUriEnv : GenEnv :=
  { apiKey := some "k", encode := Except.ok "b64",
    submit := Except.ok ⟨false, none⟩,
    polls := [Except.ok ⟨true, none⟩],
    fetchResp := Except.ok ⟨true, "OK"⟩, blob := Except.ok () }

/-- Witness for C6 at a concrete done-without-URI run. -/
theorem c6_missing_result_witness :
    (readyState.imageFile.isNone = false ∧ (readyState.prompt == "") = false
      ∧ noUriEnv.encode = Except.ok "b64"
      ∧ noUriEnv.submit = Except.ok ⟨false, none⟩
      ∧ (pollLoop ⟨false, none⟩ noUriEnv.polls).1 = some (Except.ok ⟨true, none⟩)
      ∧ (⟨true, none⟩ : Operation).videoUri = none)
    ∧ ∃ s2 renv2,
        (handleGenerateVideo readyState oneHandleRenv noUriEnv).1 = some (s2, renv2)
        ∧ s2.error = some ("Failed to generate video: " ++ missingUriText)
        ∧ s2.generatedVideoUrl = none
        ∧ renv2.nextHandle = oneHandleRenv.nextHandle
        ∧ s2.isLoading = false
        ∧ NetEvent.fetchCall ∉ (handleGenerateVideo readyState oneHandleRenv noUriEnv).2 :=
  ⟨⟨rfl, rfl, rfl, rfl, rfl, rfl⟩,
   c6_missing_result readyState oneHandleRenv noUriEnv "b64" ⟨false, none⟩
     ⟨true, none⟩ rfl rfl rfl rfl rfl rfl⟩

/-- A list occurs at the head of itself followed by anything. -/
theorem charsStartWith_append (l t : List Char) :
    charsStartWith l (l ++ t) = true := by
  induction l with
  | nil => rfl
  | cons a as ih => simp [charsStartWith, ih]

/-- A list occurs inside anything followed by itself. -/
theorem charsOccurIn_append (pre t : List Char) :
    charsOccurIn t (pre ++ t) = true := by
  induction pre with
  | nil =>
    cases t with
    | nil => rfl
    | cons c rest =>
      have hs := charsStartWith_append (c :: rest) []
      rw [List.append_nil] at hs
      show charsOccurIn (c :: rest) (c :: rest) = true
      unfold charsOccurIn
      simp [hs]
  | cons p ps ih =>
    show charsOccurIn t (p :: (ps ++ t)) = true
    unfold charsOccurIn
    simp [ih]

/-- A string contains any string it ends with. -/
theorem strIncludes_append_right (pre t : String) :
    strIncludes (pre ++ t) t = true := by
  unfold strIncludes
  rw [String.data_append]
  exact charsOccurIn_append pre.data t.data

/-- An environment whose asset fetch returns a non-OK response whose
status text is itself the entity-not-found signal. -/
def badStatusEnv : GenEnv :=
  { apiKey := some "k", encode := Except.ok "b64",
    submit := Except.ok ⟨false, none⟩,
    polls := [Except.ok ⟨true, some "u"⟩],
    fetchResp := Except.ok ⟨false, "Requested entity was not found"⟩,
    blob := Except.ok () }

/-- C7 counterexample: the claim states that every non-OK asset fetch ends
Failed with an error message containing the response's status text.  When
the status text itself contains the entity-not-found signal, the catch
block's auth classification takes precedence (App.tsx 166-168): the banner
becomes the fixed auth text, which does not contain the status text. -/
theorem c7_status_text_counterexample :
    badStatusEnv.fetchResp = Except.ok ⟨false, entityNotFoundSignal⟩
    ∧ ((handleGenerateVideo readyState oneHandleRenv badStatusEnv).1.map
        (fun p => p.1.error)) = some (some authErrorText)
    ∧ ((handleGenerateVideo readyState oneHandleRenv badStatusEnv).1.map
        (fun p => p.1.apiKeySelected)) = some (some false)
    ∧ strIncludes authErrorText entityNotFoundSignal = false :=
  ⟨rfl, by decide, by decide, by decide⟩

/-- The cleanup effect never allocates or frees the handle counter. -/
theorem generatedVideoUrlCleanup_nextHandle (o v : Option Nat)
    (renv : ResourceEnv) :
    (generatedVideoUrlCleanup o v renv).nextHandle = renv.nextHandle := by
  unfold generatedVideoUrlCleanup revokeObjectURL
  rcases o with _ | h
  · rfl
  · simp only
    split <;> rfl

/-- C7 amended: for every non-OK asset fetch whose thrown message (the
fixed fetch-failure prefix followed by the status text) does not contain
the entity-not-found signal, the flow ends in the failure state whose
banner carries — and hence contains — the status text, the ready state is
not reached (no result handle exists), and the credential flag is
unchanged.  When that message does contain the signal, the auth
classification takes precedence instead. -/
theorem c7_fetch_failure_status_text (s : AppState) (renv : ResourceEnv)
    (env : GenEnv) (b : String) (op opF : Operation) (uri key : String)
    (resp : FetchResponse)
    (himg : s.imageFile.isNone = false) (hp : (s.prompt == "") = false)
    (henc : env.encode = Except.ok b) (hsub : env.submit = Except.ok op)
    (hpoll : (pollLoop op env.polls).1 = some (Except.ok opF))
    (huri : opF.videoUri = some uri) (hkey : env.apiKey = some key)
    (hfetch : env.fetchResp = Except.ok resp) (hok : resp.ok = false)
    (hninc : strIncludes ("Failed to fetch video: " ++ resp.statusText)
        entityNotFoundSignal = false) :
    ∃ s2 renv2, (handleGenerateVideo s renv env).1 = some (s2, renv2)
    ∧ s2.error = some ("Failed to generate video: "
        ++ ("Failed to fetch video: " ++ resp.statusText))
    ∧ strIncludes ("Failed to generate video: "
        ++ ("Failed to fetch video: " ++ resp.statusText)) resp.statusText = true
    ∧ s2.generatedVideoUrl = none
    ∧ renv2.nextHandle = renv.nextHandle
    ∧ s2.isLoading = false
    ∧ s2.apiKeySelected = s.apiKeySelected := by
  have hfl : (flowResult env).1 =
      FlowResult.failure ("Failed to fetch video: " ++ resp.statusText) := by
    unfold flowResult
    rw [henc, hsub]
    rcases hpl : pollLoop op env.polls with ⟨r, tr⟩
    rw [hpl] at hpoll
    simp only at hpoll
    subst hpoll
    simp [hpl, huri, hkey, hfetch, hok]
  have hincl : strIncludes ("Failed to generate video: "
      ++ ("Failed to fetch video: " ++ resp.statusText)) resp.statusText = true := by
    have hs := strIncludes_append_right
      ("Failed to generate video: " ++ "Failed to fetch video: ") resp.statusText
    rwa [String.append_assoc] at hs
  have hrun : (handleGenerateVideo s renv env).1 =
      some ({ s with isLoading := false,
                     error := some ("Failed to generate video: "
                       ++ ("Failed to fetch video: " ++ resp.statusText)),
                     generatedVideoUrl := none },
            generatedVideoUrlCleanup s.generatedVideoUrl none renv) := by
    unfold handleGenerateVideo
    rw [if_neg (by simp [himg, hp])]
    rcases hfv : flowResult env with ⟨r, tr⟩
    rw [hfv] at hfl
    simp only at hfl
    subst hfl
    rcases hgv : s.generatedVideoUrl with _ | h0 <;>
      simp [hgv, catchBlock, hninc, setGeneratedVideoUrlM,
        generatedVideoUrlCleanup, revokeObjectURL]
  exact ⟨_, _, hrun, rfl, hincl, rfl,
    generatedVideoUrlCleanup_nextHandle s.generatedVideoUrl none renv, rfl, rfl⟩

/-- An environment whose asset fetch returns a plain non-OK response. -/
def failFetchEnv : GenEnv :=
  { apiKey := some "k", encode := Except.ok "b64",
    submit := Except.ok ⟨false, none⟩,
    polls := [Except.ok ⟨true, some "u"⟩],
    fetchResp := Except.ok ⟨false, "Internal Server Error"⟩,
    blob := Except.ok () }

/-- Witness for the amended C7 at a concrete non-OK fetch. -/
theorem c7_fetch_failure_status_text_witness :
    (readyState.imageFile.isNone = false ∧ (readyState.prompt == "") = false
      ∧ failFetchEnv.fetchResp = Except.ok ⟨false, "Internal Server Error"⟩
      ∧ (⟨false, "Internal Server Error"⟩ : FetchResponse).ok = false
      ∧ strIncludes ("Failed to fetch video: " ++ "Internal Server Error")
          entityNotFoundSignal = false)
    ∧ ∃ s2 renv2,
        (handleGenerateVideo readyState oneHandleRenv failFetchEnv).1 = some (s2, renv2)
        ∧ s2.error = some ("Failed to generate video: "
            ++ ("Failed to fetch video: " ++ "Internal Server Error"))
        ∧ strIncludes ("Failed to generate video: "
            ++ ("Failed to fetch video: " ++ "Internal Server Error"))
            "Internal Server Error" = true
        ∧ s2.generatedVideoUrl = none
        ∧ renv2.nextHandle = oneHandleRenv.nextHandle
        ∧ s2.isLoading = false
        ∧ s2.apiKeySelected = readyState.apiKeySelected :=
  ⟨⟨rfl, rfl, rfl, rfl, by decide⟩,
   c7_fetch_failure_status_text readyState oneHandleRenv failFetchEnv "b64"
     ⟨false, none⟩ ⟨true, some "u"⟩ "u" "k" ⟨false, "Internal Server Error"⟩
     rfl rfl rfl rfl rfl rfl rfl rfl rfl (by decide)⟩

/-- C8: while the submitted job is undone the loop keeps polling: given
any number `n` of undone poll responses followed by a done one, every
iteration first waits the fixed 10000 ms interval and then polls with the
current (refreshed) job handle, and the loop stops exactly at the first
done response.  This holds for every `n`: the loop has no iteration
cap. -/
theorem c8_polling_interval (uop dop : Operation) (n : Nat)
    (hu : uop.done = false) (hd : dop.done = true) :
    ∀ op : Operation, op.done = false →
    pollLoop op (List.replicate n (Except.ok uop) ++ [Except.ok dop]) =
      (some (Except.ok dop),
       NetEvent.wait 10000 :: NetEvent.pollCall op ::
         (List.replicate n [NetEvent.wait 10000, NetEvent.pollCall uop]).flatten) := by
  induction n with
  | zero =>
    intro op hop
    simp [pollLoop, hop, hd]
  | succ k ih =>
    intro op hop
    rw [List.replicate_succ, List.cons_append]
    unfold pollLoop
    rw [if_neg (by simp [hop])]
    simp only
    rw [ih uop hu]
    simp [List.replicate_succ]

/-- Witness for C8 with two undone responses before completion. -/
theorem c8_polling_interval_witness :
    ((⟨false, none⟩ : Operation).done = false
      ∧ (⟨true, some "u"⟩ : Operation).done = true
      ∧ (⟨false, some "j"⟩ : Operation).done = false)
    ∧ pollLoop ⟨false, some "j"⟩
        (List.replicate 2 (Except.ok ⟨false, none⟩) ++ [Except.ok ⟨true, some "u"⟩]) =
      (some (Except.ok ⟨true, some "u"⟩),
       NetEvent.wait 10000 :: NetEvent.pollCall ⟨false, some "j"⟩ ::
         (List.replicate 2
           [NetEvent.wait 10000, NetEvent.pollCall ⟨false, none⟩]).flatten) :=
  ⟨⟨rfl, rfl, rfl⟩,
   c8_polling_interval ⟨false, none⟩ ⟨true, some "u"⟩ 2 rfl rfl
     ⟨false, some "j"⟩ rfl⟩

/-- C9: for every outcome of the encoding, submission, polling and fetch
steps that lets the flow terminate (the poll schedule is not exhausted
undone), `handleGenerateVideo` on a valid request returns normally — it
is a total function, every step failure being absorbed by the catch
block — with the loading flag cleared, and with the error banner set
whenever the try block failed. -/
theorem c9_no_unhandled_rejection (s : AppState) (renv : ResourceEnv)
    (env : GenEnv)
    (himg : s.imageFile.isNone = false) (hp : (s.prompt == "") = false)
    (hterm : (flowResult env).1 ≠ FlowResult.pending) :
    ∃ s2 renv2, (handleGenerateVideo s renv env).1 = some (s2, renv2)
    ∧ s2.isLoading = false
    ∧ (∀ m, (flowResult env).1 = FlowResult.failure m → s2.error.isSome = true) := by
  unfold handleGenerateVideo
  rw [if_neg (by simp [himg, hp])]
  rcases hfv : flowResult env with ⟨r, tr⟩
  rw [hfv] at hterm
  simp only at hterm
  cases r with
  | pending => exact absurd rfl hterm
  | success =>
    refine ⟨_, _, rfl, rfl, ?_⟩
    intro m hm
    exact FlowResult.noConfusion hm
  | failure m0 =>
    refine ⟨_, _, rfl, rfl, ?_⟩
    intro m hm
    unfold catchBlock
    split <;> rfl

/-- Witness for C9 at a concrete all-success environment. -/
theorem c9_no_unhandled_rejection_witness :
    (readyState.imageFile.isNone = false ∧ (readyState.prompt == "") = false
      ∧ (flowResult happyEnv).1 ≠ FlowResult.pending)
    ∧ ∃ s2 renv2,
        (handleGenerateVideo readyState oneHandleRenv happyEnv).1 = some (s2, renv2)
        ∧ s2.isLoading = false
        ∧ (∀ m, (flowResult happyEnv).1 = FlowResult.failure m →
            s2.error.isSome = true) :=
  ⟨⟨rfl, rfl, by decide⟩,
   c9_no_unhandled_rejection readyState oneHandleRenv happyEnv rfl rfl (by decide)⟩

/-- jsIndexOf of an absent element is -1. -/
theorem jsIndexOf_not_mem (l : List String) (x : String) (h : x ∉ l) :
    jsIndexOf l x = -1 := by
  induction l with
  | nil => rfl
  | cons a rest ih =>
    simp only [List.mem_cons, not_or] at h
    have hax : (a == x) = false := by
      simp only [beq_eq_false_iff_ne, ne_eq]
      exact fun he => h.1 he.symm
    unfold jsIndexOf
    simp [hax, ih h.2]

/-- jsIndexOf of a present element is a valid index. -/
theorem jsIndexOf_mem_bounds (l : List String) (x : String) (h : x ∈ l) :
    0 ≤ jsIndexOf l x ∧ jsIndexOf l x < l.length := by
  induction l with
  | nil => simp at h
  | cons a rest ih =>
    by_cases hax : a = x
    · have hax2 : (a == x) = true := by simp [hax]
      unfold jsIndexOf
      simp only [hax2, if_true, List.length_cons]
      omega
    · have hx : x ∈ rest := by
        rcases List.mem_cons.mp h with h1 | h1
        · exact absurd h1.symm hax
        · exact h1
      have hb := ih hx
      have hax2 : (a == x) = false := by simp [hax]
      have hne : (jsIndexOf rest x == (-1 : Int)) = false := by
        simp only [beq_eq_false_iff_ne, ne_eq]
        omega
      unfold jsIndexOf
      simp only [hax2, Bool.false_eq_true, if_false, hne, List.length_cons]
      omega

/-- An in-bounds getD is an element of the list. -/
theorem getD_mem_of_lt (l : List String) (n : Nat) (d : String)
    (h : n < l.length) : l.getD n d ∈ l := by
  induction l generalizing n with
  | nil => simp at h
  | cons a rest ih =>
    cases n with
    | zero => simp [List.getD_cons_zero]
    | succ k =>
      rw [List.getD_cons_succ]
      exact List.mem_cons_of_mem _ (ih k (by simpa using h))

/-- C10: the loading-message rotation step is total and closed over the
five-message list: for every current string the computed next message is
an element of the list; a string not in the list maps to the first
element (indexOf yields -1 and (-1 + 1) mod 5 = 0); and the message at
index i maps to the message at index (i + 1) mod 5. -/
theorem c10_message_rotation (prev : String) :
    rotateLoadingMessage prev ∈ loadingMessages
    ∧ (prev ∉ loadingMessages →
        rotateLoadingMessage prev = loadingMessages.getD 0 "")
    ∧ (∀ i, i < loadingMessages.length →
        rotateLoadingMessage (loadingMessages.getD i "") =
          loadingMessages.getD ((i + 1) % loadingMessages.length) "") := by
  refine ⟨?_, ?_, ?_⟩
  · by_cases h : prev ∈ loadingMessages
    · have hb := jsIndexOf_mem_bounds loadingMessages prev h
      unfold rotateLoadingMessage
      have hlen : loadingMessages.length = 5 := rfl
      rw [hlen] at hb
      have h0 : 0 ≤ (jsIndexOf loadingMessages prev + 1) %
          (loadingMessages.length : Int) :=
        Int.emod_nonneg _ (by rw [hlen]; norm_num)
      have h1 : (jsIndexOf loadingMessages prev + 1) %
          (loadingMessages.length : Int) < 5 := by
        rw [hlen]
        exact Int.emod_lt_of_pos _ (by norm_num)
      exact getD_mem_of_lt _ _ _ (by rw [hlen]; omega)
    · have hni := jsIndexOf_not_mem loadingMessages prev h
      unfold rotateLoadingMessage
      rw [hni]
      decide
  · intro h
    unfold rotateLoadingMessage
    rw [jsIndexOf_not_mem loadingMessages prev h]
    decide
  · intro i hi
    have hlen : loadingMessages.length = 5 := rfl
    rw [hlen] at hi
    interval_cases i <;> decide

/-- Witness for C10 at an unrecognized message and at index 1. -/
theorem c10_message_rotation_witness :
    rotateLoadingMessage "x" ∈ loadingMessages
    ∧ ("x" ∉ loadingMessages
        ∧ rotateLoadingMessage "x" = loadingMessages.getD 0 "")
    ∧ (1 < loadingMessages.length
        ∧ rotateLoadingMessage (loadingMessages.getD 1 "") =
            loadingMessages.getD ((1 + 1) % loadingMessages.length) "") :=
  ⟨(c10_message_rotation "x").1,
   ⟨by decide, (c10_message_rotation "x").2.1 (by decide)⟩,
   ⟨by decide, (c10_message_rotation "x").2.2 1 (by decide)⟩⟩

